import Mathlib

/-!
# Verification of the investment-tracker client core

Shallow embedding of the repository's client logic:

* `AuthContext` — the session store (`AuthProvider`, `usePersistentState`,
  the `onAuthStateChange` listener and the exposed `signOut`);
* `AppRoutes` — the route guard (`PrivateRoute`);
* `Dashboard` — the list view (`fetchInvestments` result handling,
  `deleteInvestment`, the totals row) together with the server-side
  row-level-security delete policy from the SQL migration;
* `NewInvestment` — the multi-allocation entry form (`handleAddAllocation`,
  `handleRemoveAllocation`, `totalAmount`, `handleSubmit` and the
  processing of the batched insert results).

Strings stay strings, JavaScript numbers are modelled as `ℚ`, a JavaScript
`NaN` result of `parseFloat` is modelled as `none : Option ℚ`, and calendar
dates are carried as opaque strings (the code only ever threads them
through).
-/

namespace DcaExperiment

/-- A user as exposed by the auth service: the code only reads `user.id`
(plus an email shown nowhere in the embedded components). -/
structure User where
  id : String
  email : String
deriving Repr, DecidableEq

/-- A session issued by the auth service; the client reads `session.user`
(via `session?.user`). -/
structure Session where
  user : User
deriving Repr, DecidableEq

/-! ## Session store (`AuthProvider` in the auth context file) -/

/-- The pair of react states held by `AuthProvider`:
`session` from `usePersistentState("session", null)` and
`user` from `useState<User | null>(null)`. -/
structure AuthState where
  session : Option Session
  user : Option User
deriving Repr, DecidableEq

/-- `usePersistentState("session", null)` initialiser: the stored local
storage snapshot if one parses, otherwise the initial value `null`.
`stored` is the (already parsed) content of local storage under the key
`"session"`; `none` means no stored value. -/
def restoreSession (stored : Option Session) : Option Session :=
  match stored with
  | some s => some s
  | none => none

/-- The state of `AuthProvider` right after construction: `session` is the
restored snapshot, `user` starts as `null` — no code path sets it before
the asynchronous `getSession` resolution or an auth event. -/
def AuthProvider.init (stored : Option Session) : AuthState :=
  { session := restoreSession stored, user := none }

/-- Body of the `onAuthStateChange` listener (and, identically, of the
`getSession().then` continuation): `setSession(session)` and
`setUser(session?.user ?? null)`. -/
def onAuthStateChange (payload : Option Session) : AuthState :=
  { session := payload, user := payload.map (fun s => s.user) }

/-- Delivering one auth-state-change event to the store replaces the whole
state with the listener's writes (the previous state is not consulted). -/
def authStep (state : AuthState) (payload : Option Session) : AuthState :=
  let _ := state
  onAuthStateChange payload

/-- Delivering a sequence of auth-state-change events in order. -/
def applyAuthEvents (state : AuthState) (events : List (Option Session)) : AuthState :=
  events.foldl authStep state

/-- Requests the auth service may receive from the store. -/
inductive AuthRequest
  | remoteSignOut
deriving Repr, DecidableEq

/-- The exposed `signOut` of the context value: it is
`() => supabase.auth.signOut()` — it issues the remote invalidation and
touches neither react state. -/
def signOut (state : AuthState) : AuthState × List AuthRequest :=
  (state, [AuthRequest.remoteSignOut])

/-! ## Route guard (`PrivateRoute` in the app routes file) -/

/-- What `PrivateRoute` renders. -/
inductive RouteOutcome
  | renderChildren
  | redirectToLogin
deriving Repr, DecidableEq

/-- `PrivateRoute`: `session ? children : <Navigate to="/login" />`; a
non-null session object is truthy. -/
def PrivateRoute (session : Option Session) : RouteOutcome :=
  match session with
  | some _ => RouteOutcome.renderChildren
  | none => RouteOutcome.redirectToLogin

/-! ## List view (`Dashboard` component) and the delete path -/

/-- The client-side `Investment` interface of the dashboard file. -/
structure Investment where
  id : String
  amount : ℚ
  investment_date : String
  category : String
  notes : String
deriving Repr, DecidableEq

/-- A row of the `investments` relation as the SQL migration declares it
(the client interface omits `user_id`; the server row carries it). -/
structure InvestmentRow where
  id : String
  user_id : String
  amount : ℚ
  investment_date : String
  category : String
  notes : String
deriving Repr, DecidableEq

/-- The react states of `Dashboard` that the embedded operations touch. -/
structure DashboardState where
  investments : List Investment
  error : Option String
deriving Repr, DecidableEq

/-- Filter the client's delete call attaches:
`supabase.from("investments").delete().eq("id", id)` — it matches the row
with the given id and carries no user condition. -/
def deleteRequestFilter (id : String) (row : InvestmentRow) : Bool :=
  row.id == id

/-- Row-level-security policy `"Users can delete own investments"` from
the migration: `FOR DELETE TO authenticated USING (auth.uid() = user_id)`. -/
def deletePolicy (uid : String) (row : InvestmentRow) : Bool :=
  uid == row.user_id

/-- Effect of the delete request on the server table: the service removes
exactly the rows that match the request's filter and pass the policy. -/
def serverDelete (uid : String) (id : String) (table : List InvestmentRow) :
    List InvestmentRow :=
  table.filter (fun row => !(deleteRequestFilter id row && deletePolicy uid row))

/-- Client-side continuation of `deleteInvestment id` once the call
resolved: on error, `setError(...)` with the error's message; otherwise
`setInvestments(prev => prev.filter(item => item.id !== id))`. -/
def deleteInvestment (st : DashboardState) (id : String)
    (result : Option String) : DashboardState :=
  match result with
  | some message => { st with error := some message }
  | none => { st with investments := st.investments.filter (fun item => item.id != id) }

/-- Guard of the totals `<thead>`: `investments.length !== 0`. -/
def totalsRowRendered (investments : List Investment) : Bool :=
  investments.length != 0

/-- Amount cell of the totals row:
`investments.reduce((sum, item) => sum + item.amount, 0)`. -/
def totalsAmount (investments : List Investment) : ℚ :=
  investments.foldl (fun sum item => sum + item.amount) 0

/-- Date-range cell of the totals row, the template literal
`` `${investments[investments.length - 1]?.investment_date} - ${investments[0]?.investment_date}` ``;
an out-of-range `?.` access renders as the text `undefined`. -/
def totalsDateRange (investments : List Investment) : String :=
  ((investments.getLast?.map (fun i => i.investment_date)).getD "undefined")
    ++ " - "
    ++ ((investments.head?.map (fun i => i.investment_date)).getD "undefined")

/-! ## Entry form (`NewInvestment` component)

`parseFloat` is modelled on the subset of JavaScript `parseFloat` the form
can meet: an optional sign followed by a decimal digit string with an
optional fractional part, parsed as a longest prefix; when not even one
digit is consumed the JavaScript result is `NaN`, modelled as `none`.
(Exponents and leading whitespace are not modelled; no claim depends on
them.) -/

/-- Longest prefix of decimal digits and the remaining characters. -/
def takeDigits : List Char → List Char × List Char
  | [] => ([], [])
  | c :: rest =>
    if c.isDigit then
      let (ds, r) := takeDigits rest
      (c :: ds, r)
    else ([], c :: rest)

/-- Value of a digit string read in base 10. -/
def digitsToNat (ds : List Char) : ℕ :=
  ds.foldl (fun acc c => acc * 10 + (c.toNat - 48)) 0

/-- JavaScript `parseFloat` on the modelled subset; `none` stands for `NaN`. -/
def parseFloat (s : String) : Option ℚ :=
  let cs := s.toList
  let signAndRest : ℚ × List Char :=
    match cs with
    | '-' :: rest => (-1, rest)
    | '+' :: rest => (1, rest)
    | _ => (1, cs)
  let intPart := takeDigits signAndRest.2
  match intPart.2 with
  | '.' :: afterPoint =>
    let fracPart := takeDigits afterPoint
    if intPart.1.isEmpty && fracPart.1.isEmpty then none
    else
      some (signAndRest.1 *
        ((digitsToNat intPart.1 : ℚ) +
          (digitsToNat fracPart.1 : ℚ) / (10 ^ fracPart.1.length)))
  | _ =>
    if intPart.1.isEmpty then none
    else some (signAndRest.1 * (digitsToNat intPart.1 : ℚ))

/-- The `CategoryAllocation` interface: `notes` is an optional field, so a
draft may lack it entirely (`none`). -/
structure CategoryAllocation where
  category : String
  amount : String
  notes : Option String
deriving Repr, DecidableEq

/-- The draft the allocations state is initialised with:
`{ category: "", amount: "", notes: "" }`. -/
def initialDraft : CategoryAllocation :=
  { category := "", amount := "", notes := some "" }

/-- The draft appended by `handleAddAllocation` and substituted by
`handleRemoveAllocation`: `{ category: "", amount: "" }` — the `notes`
field is absent. -/
def freshDraft : CategoryAllocation :=
  { category := "", amount := "", notes := none }

/-- `useState<CategoryAllocation[]>([{ category: "", amount: "", notes: "" }])`. -/
def initialAllocations : List CategoryAllocation :=
  [initialDraft]

/-- `handleAddAllocation`: `setAllocations([...allocations, { category: "", amount: "" }])`. -/
def handleAddAllocation (allocations : List CategoryAllocation) :
    List CategoryAllocation :=
  allocations ++ [freshDraft]

/-- `handleRemoveAllocation(index)`: reset to one fresh draft when only one
draft remains, otherwise `allocations.filter((_, i) => i !== index)`. -/
def handleRemoveAllocation (allocations : List CategoryAllocation)
    (index : ℕ) : List CategoryAllocation :=
  if allocations.length == 1 then
    [freshDraft]
  else
    (allocations.enum.filter (fun p => p.1 != index)).map (fun p => p.2)

/-- Derived display total:
`allocations.reduce((sum, a) => sum + (parseFloat(a.amount) || 0), 0)`;
`parseFloat` returning `NaN` (or `0`) makes the `||` yield `0`. -/
def totalAmount (allocations : List CategoryAllocation) : ℚ :=
  allocations.foldl
    (fun sum allocation => sum + ((parseFloat allocation.amount).getD 0)) 0

/-- Validation predicate of `handleSubmit`:
`allocations.some(a => !a.category || !a.amount || parseFloat(a.amount) <= 0)`.
An empty string is falsy; `NaN <= 0` is false, so an unparsable amount does
not trip this check. -/
def invalidAllocations (allocations : List CategoryAllocation) : Bool :=
  allocations.any (fun alloc =>
    alloc.category == "" || alloc.amount == "" ||
      (match parseFloat alloc.amount with
       | some v => decide (v ≤ 0)
       | none => false))

/-- One row sent to `supabase.from("investments").insert`; `amount` is the
raw `parseFloat` result (`none` = `NaN` reaches the wire). -/
structure InsertRequest where
  user_id : String
  amount : Option ℚ
  category : String
  investment_date : String
  notes : String
deriving Repr, DecidableEq

/-- The request built for one allocation inside `allocations.map`:
`{ user_id: user.id, amount: parseFloat(a.amount), category: a.category,
investment_date: formData.investmentDate, notes: a.notes || "" }`. -/
def buildInsertRequest (uid : String) (investmentDate : String)
    (allocation : CategoryAllocation) : InsertRequest :=
  { user_id := uid
    amount := parseFloat allocation.amount
    category := allocation.category
    investment_date := investmentDate
    notes := allocation.notes.getD "" }

/-- Outcome of the synchronous front half of `handleSubmit`: either an
early return with an error and no network traffic, or the batch of insert
requests issued concurrently via `Promise.all`. -/
inductive SubmitStep
  | rejectedNoUser (error : String)
  | rejectedInvalid (error : String)
  | issued (requests : List InsertRequest)
deriving Repr, DecidableEq

/-- The create requests a `SubmitStep` puts on the wire. -/
def SubmitStep.requests : SubmitStep → List InsertRequest
  | SubmitStep.issued rs => rs
  | SubmitStep.rejectedNoUser _ => []
  | SubmitStep.rejectedInvalid _ => []

/-- The error message a `SubmitStep` sets, when it rejects. -/
def SubmitStep.errorMessage : SubmitStep → Option String
  | SubmitStep.issued _ => none
  | SubmitStep.rejectedNoUser e => some e
  | SubmitStep.rejectedInvalid e => some e

/-- Front half of `handleSubmit`: the `!user` guard, the
`invalidAllocations` guard, then `allocations.map(... insert ...)`. -/
def handleSubmit (user : Option User) (investmentDate : String)
    (allocations : List CategoryAllocation) : SubmitStep :=
  match user with
  | none => SubmitStep.rejectedNoUser "You must be logged in to add investments"
  | some u =>
    if invalidAllocations allocations then
      SubmitStep.rejectedInvalid "All categories must be selected and have a valid amount"
    else
      SubmitStep.issued (allocations.map (buildInsertRequest u.id investmentDate))

/-- A delete request the form could (but never does) issue to compensate a
partially failed batch. -/
structure CompensationDelete where
  id : String
deriving Repr, DecidableEq

/-- What the user observes after the batch settles. -/
structure SubmitResult where
  error : Option String
  navigatedTo : Option String
  rollbackRequests : List CompensationDelete
deriving Repr, DecidableEq

/-- Back half of `handleSubmit`, after `await Promise.all`: each result is
its error field (`none` = the insert succeeded, `some m` = it failed with
message `m`). `results.filter(r => r.error)` picks the failures in request
order; a non-empty pick throws `insertErrors[0].error`, which the `catch`
turns into `setError(message)` with no navigation and no compensation;
otherwise `navigate("/dashboard")`. -/
def processResults (results : List (Option String)) : SubmitResult :=
  match results.filter (fun result => result.isSome) with
  | [] => { error := none, navigatedTo := some "/dashboard", rollbackRequests := [] }
  | firstErr :: _ =>
    { error := some (firstErr.getD "Failed to add investments. Please try again.")
      navigatedTo := none
      rollbackRequests := [] }

/-! ## Helper lemmas -/

/-- Folding `+ f x` over a list from an accumulator is the accumulator plus
the sum of the mapped list. -/
theorem foldl_add_map {α : Type} (f : α → ℚ) (l : List α) (a : ℚ) :
    l.foldl (fun sum x => sum + f x) a = a + (l.map f).sum := by
  induction l generalizing a with
  | nil => simp
  | cons x rest ih => simp [ih, add_assoc]

/-- All indices of `enumFrom n l` are at least `n`, so filtering out an
index below `n` keeps everything. -/
theorem enumFrom_filter_ge {α : Type} (l : List α) (n index : ℕ)
    (h : index < n) :
    (List.enumFrom n l).filter (fun p => p.1 != index) = List.enumFrom n l := by
  induction l generalizing n with
  | nil => simp
  | cons a rest ih =>
    have hne : (n != index) = true := by
      simp only [bne_iff_ne, ne_eq]
      omega
    simp [List.enumFrom, List.filter, hne, ih (n + 1) (by omega)]

/-- Filtering one index out of an enumeration drops at most one element. -/
theorem enumFrom_filter_length {α : Type} (l : List α) (n index : ℕ) :
    l.length - 1 ≤ ((List.enumFrom n l).filter (fun p => p.1 != index)).length := by
  induction l generalizing n with
  | nil => simp
  | cons a rest ih =>
    by_cases hn : n = index
    · subst hn
      have : (n != n) = false := by simp
      simp [List.enumFrom, List.filter, this,
        enumFrom_filter_ge rest (n + 1) n (by omega)]
    · have hne : (n != index) = true := by simpa [bne_iff_ne] using hn
      have := ih (n + 1)
      simp only [List.enumFrom, List.filter, hne, List.length_cons]
      omega

/-- `processResults` is determined by the first failure among the results:
the filter-then-head of the implementation equals `findSome?`. -/
theorem processResults_eq_findSome (results : List (Option String)) :
    processResults results =
      match results.findSome? id with
      | some m => { error := some m, navigatedTo := none, rollbackRequests := [] }
      | none => { error := none, navigatedTo := some "/dashboard", rollbackRequests := [] } := by
  induction results with
  | nil => rfl
  | cons r rest ih =>
    cases r with
    | none =>
      simpa [processResults, List.filter, List.findSome?] using ih
    | some m => simp [processResults, List.filter, List.findSome?]

/-- A list in which every element is `none` has no first `some`. -/
theorem findSome_id_eq_none (results : List (Option String))
    (h : ∀ r ∈ results, r = none) : results.findSome? id = none := by
  induction results with
  | nil => rfl
  | cons r rest ih =>
    have hr : r = none := h r (by simp)
    subst hr
    simp only [List.findSome?, id]
    exact ih (fun x hx => h x (by simp [hx]))

/-! ## Claims -/

/-- C4: after any sequence of auth-state-change events, the session store's
exposed session equals the most recently delivered payload, and the exposed
user is replaced in the very same step, to the event session's user, or to
absent when the payload is null. -/
theorem session_tracks_last_auth_event (init : AuthState)
    (events : List (Option Session)) (last : Option Session) :
    applyAuthEvents init (events ++ [last]) =
      { session := last, user := last.map (fun s => s.user) } ∧
    (∀ (state : AuthState) (payload : Option Session),
      authStep state payload =
        { session := payload, user := payload.map (fun s => s.user) }) := by
  constructor
  · simp [applyAuthEvents, List.foldl_append, authStep, onAuthStateChange]
  · intro state payload
    rfl

/-- C10: `signOut` leaves the store's exposed session and user untouched
and only issues the remote invalidation request; both fields are cleared
only by a later auth-state-change event carrying a null payload. -/
theorem signOut_does_not_clear_local_state (state : AuthState) :
    (signOut state).1 = state ∧
    (signOut state).2 = [AuthRequest.remoteSignOut] ∧
    (∀ s : AuthState, authStep s none = { session := none, user := none }) := by
  exact ⟨rfl, rfl, fun s => rfl⟩

/-- C5: at construction the store's user is absent even when a session
snapshot was restored from local storage; in that window the route guard
admits (the session is non-null) while form submission rejects with the
not-logged-in error and issues no requests; the user only becomes present
once the session fetch resolution or an auth event delivers a session. -/
theorem init_user_absent_despite_restored_session (stored : Option Session) :
    (AuthProvider.init stored).user = none ∧
    (∀ s : Session, stored = some s →
      PrivateRoute (AuthProvider.init stored).session = RouteOutcome.renderChildren ∧
      ∀ (date : String) (allocations : List CategoryAllocation),
        handleSubmit (AuthProvider.init stored).user date allocations =
          SubmitStep.rejectedNoUser "You must be logged in to add investments" ∧
        (handleSubmit (AuthProvider.init stored).user date allocations).requests = []) ∧
    (∀ payload : Option Session,
      (authStep (AuthProvider.init stored) payload).user =
        payload.map (fun s => s.user)) := by
  refine ⟨rfl, ?_, fun payload => rfl⟩
  intro s hs
  subst hs
  exact ⟨rfl, fun date allocations => ⟨rfl, rfl⟩⟩

/-- Witness for C5 at a concrete restored snapshot. -/
theorem init_user_absent_despite_restored_session_witness :
    (AuthProvider.init (some ⟨⟨"user-1", "a@b.c"⟩⟩)).user = none ∧
    PrivateRoute (AuthProvider.init (some ⟨⟨"user-1", "a@b.c"⟩⟩)).session =
      RouteOutcome.renderChildren ∧
    handleSubmit (AuthProvider.init (some ⟨⟨"user-1", "a@b.c"⟩⟩)).user
        "2024-01-01" initialAllocations =
      SubmitStep.rejectedNoUser "You must be logged in to add investments" :=
  ⟨(init_user_absent_despite_restored_session (some ⟨⟨"user-1", "a@b.c"⟩⟩)).1,
   ((init_user_absent_despite_restored_session (some ⟨⟨"user-1", "a@b.c"⟩⟩)).2.1 _ rfl).1,
   (((init_user_absent_despite_restored_session (some ⟨⟨"user-1", "a@b.c"⟩⟩)).2.1 _ rfl).2
      "2024-01-01" initialAllocations).1⟩

/-- C9: the form's derived total is the sum of all drafts' amount fields
with unparsable or empty amount strings contributing zero; for the drafts
with amounts "10", "abc", "5.5" it equals 15.5. -/
theorem derived_total_sums_parsed_amounts (allocations : List CategoryAllocation) :
    totalAmount allocations =
      (allocations.map (fun a => (parseFloat a.amount).getD 0)).sum ∧
    parseFloat "abc" = none ∧
    parseFloat "" = none ∧
    totalAmount
      [{ category := "", amount := "10", notes := none },
       { category := "", amount := "abc", notes := none },
       { category := "", amount := "5.5", notes := none }] = 15.5 := by
  refine ⟨?_,
    by simp +decide [parseFloat, takeDigits, digitsToNat],
    by simp +decide [parseFloat, takeDigits, digitsToNat],
    by simp +decide [totalAmount, parseFloat, takeDigits, digitsToNat]
       norm_num⟩
  simpa [totalAmount] using
    foldl_add_map (fun a : CategoryAllocation => (parseFloat a.amount).getD 0)
      allocations 0

/-- C1: when at least one create request of the batch fails, the first
failure's message (in request order) becomes the form error, no navigation
happens and no compensating deletes are issued — already-successful inserts
stay persisted; only an all-success batch navigates to the list view. -/
theorem batch_failure_surfaces_first_error_without_rollback
    (results : List (Option String)) :
    ((∀ r ∈ results, r = none) →
      processResults results =
        { error := none, navigatedTo := some "/dashboard", rollbackRequests := [] }) ∧
    (∀ m : String, results.findSome? id = some m →
      processResults results =
        { error := some m, navigatedTo := none, rollbackRequests := [] }) := by
  constructor
  · intro h
    rw [processResults_eq_findSome, findSome_id_eq_none results h]
  · intro m hm
    rw [processResults_eq_findSome, hm]

/-- Witness for C1: a batch whose second and third inserts fail surfaces
the second insert's message and stays on the form; an all-success batch
navigates. -/
theorem batch_failure_surfaces_first_error_without_rollback_witness :
    processResults [none, some "boom", some "later"] =
      { error := some "boom", navigatedTo := none, rollbackRequests := [] } ∧
    processResults [none, none] =
      { error := none, navigatedTo := some "/dashboard", rollbackRequests := [] } :=
  ⟨(batch_failure_surfaces_first_error_without_rollback
      [none, some "boom", some "later"]).2 "boom" (by decide),
   (batch_failure_surfaces_first_error_without_rollback [none, none]).1 (by decide)⟩

/-- C2: when a user is present and every draft has a non-empty category, a
non-empty amount string and a positive parsed amount, submission issues
exactly one create request per draft; the i-th request carries the user's
identifier, the i-th draft's parsed amount, its category, the shared
investment date, and its notes (empty string when the notes field is
absent). -/
theorem valid_submission_issues_one_request_per_draft (u : User) (date : String)
    (allocations : List CategoryAllocation)
    (h : ∀ a ∈ allocations, a.category ≠ "" ∧ a.amount ≠ "" ∧
      ∃ v : ℚ, parseFloat a.amount = some v ∧ 0 < v) :
    handleSubmit (some u) date allocations =
      SubmitStep.issued (allocations.map (fun a =>
        { user_id := u.id
          amount := parseFloat a.amount
          category := a.category
          investment_date := date
          notes := a.notes.getD "" })) ∧
    (handleSubmit (some u) date allocations).requests.length = allocations.length ∧
    (∀ i : ℕ, (handleSubmit (some u) date allocations).requests.get? i =
      (allocations.get? i).map (buildInsertRequest u.id date)) := by
  have hinv : invalidAllocations allocations = false := by
    simp only [invalidAllocations, List.any_eq_false]
    intro a ha
    obtain ⟨h1, h2, v, hv, hvpos⟩ := h a ha
    simp [h1, h2, hv, hvpos.not_le]
  refine ⟨?_, ?_, ?_⟩
  · simp only [handleSubmit, hinv, Bool.false_eq_true, if_false]
    rfl
  · simp [handleSubmit, hinv, SubmitStep.requests]
  · intro i
    simp [handleSubmit, hinv, SubmitStep.requests, List.get?_eq_getElem?,
      List.getElem?_map]

/-- Witness for C2: two valid drafts produce exactly their two requests. -/
theorem valid_submission_issues_one_request_per_draft_witness :
    handleSubmit (some ⟨"user-1", "a@b.c"⟩) "2024-01-01"
        [{ category := "Stocks", amount := "10", notes := some "note" },
         { category := "Bonds", amount := "5.5", notes := none }] =
      SubmitStep.issued
        [{ user_id := "user-1", amount := parseFloat "10", category := "Stocks",
           investment_date := "2024-01-01", notes := "note" },
         { user_id := "user-1", amount := parseFloat "5.5", category := "Bonds",
           investment_date := "2024-01-01", notes := "" }] := by
  have happ := (valid_submission_issues_one_request_per_draft
    ⟨"user-1", "a@b.c"⟩ "2024-01-01"
    [{ category := "Stocks", amount := "10", notes := some "note" },
     { category := "Bonds", amount := "5.5", notes := none }]
    (by
      intro a ha
      simp only [List.mem_cons, List.not_mem_nil, or_false] at ha
      rcases ha with rfl | rfl
      · exact ⟨by decide, by decide, 10,
          by simp +decide [parseFloat, takeDigits, digitsToNat], by norm_num⟩
      · exact ⟨by decide, by decide, 11 / 2,
          by simp +decide [parseFloat, takeDigits, digitsToNat]; norm_num,
          by norm_num⟩)).1
  rw [happ]
  rfl

/-- C3: when the user is absent, or some draft has an empty category, an
empty amount string, or a parsed amount at most zero, submission puts no
create request on the wire and sets one of the two fixed error messages —
neither message identifies the offending draft. -/
theorem invalid_submission_issues_no_requests (user : Option User)
    (date : String) (allocations : List CategoryAllocation)
    (h : user = none ∨ ∃ a ∈ allocations, a.category = "" ∨ a.amount = "" ∨
      ∃ v : ℚ, parseFloat a.amount = some v ∧ v ≤ 0) :
    (handleSubmit user date allocations).requests = [] ∧
    ((handleSubmit user date allocations).errorMessage =
        some "You must be logged in to add investments" ∨
      (handleSubmit user date allocations).errorMessage =
        some "All categories must be selected and have a valid amount") := by
  cases user with
  | none => exact ⟨rfl, Or.inl rfl⟩
  | some u =>
    rcases h with h | ⟨a, ha, hbad⟩
    · exact absurd h (by simp)
    · have hinv : invalidAllocations allocations = true := by
        simp only [invalidAllocations, List.any_eq_true]
        refine ⟨a, ha, ?_⟩
        rcases hbad with hcat | hamt | ⟨v, hv, hvle⟩
        · simp [hcat]
        · simp [hamt]
        · simp [hv, hvle]
      exact ⟨by simp [handleSubmit, hinv, SubmitStep.requests],
        Or.inr (by simp [handleSubmit, hinv, SubmitStep.errorMessage])⟩

/-- Witness for C3: an absent user, and a present user with a zero-amount
draft, both yield zero requests. -/
theorem invalid_submission_issues_no_requests_witness :
    (handleSubmit none "2024-01-01" initialAllocations).requests = [] ∧
    (handleSubmit (some ⟨"user-1", "a@b.c"⟩) "2024-01-01"
      [{ category := "Stocks", amount := "0", notes := none }]).requests = [] :=
  ⟨(invalid_submission_issues_no_requests none "2024-01-01" initialAllocations
      (Or.inl rfl)).1,
   (invalid_submission_issues_no_requests (some ⟨"user-1", "a@b.c"⟩) "2024-01-01"
      [{ category := "Stocks", amount := "0", notes := none }]
      (Or.inr ⟨{ category := "Stocks", amount := "0", notes := none }, by simp,
        Or.inr (Or.inr ⟨0,
          by simp +decide [parseFloat, takeDigits, digitsToNat], le_refl 0⟩)⟩)).1⟩

/-- C6 counterexample: with the loaded list holding the newest entry
(date "2024-01-02") first and the oldest (date "2024-01-01") last, the
claim's newest-to-oldest range "2024-01-02 - 2024-01-01" is not what the
totals row renders; the template interpolates the last (oldest) entry's
date first, producing "2024-01-01 - 2024-01-02". -/
theorem totals_date_range_counterexample :
    totalsDateRange
        [{ id := "a", amount := 100, investment_date := "2024-01-02",
           category := "Stocks", notes := "" },
         { id := "b", amount := 250, investment_date := "2024-01-01",
           category := "Bonds", notes := "" }] = "2024-01-01 - 2024-01-02" ∧
    ¬ totalsDateRange
        [{ id := "a", amount := 100, investment_date := "2024-01-02",
           category := "Stocks", notes := "" },
         { id := "b", amount := 250, investment_date := "2024-01-01",
           category := "Bonds", notes := "" }] = "2024-01-02 - 2024-01-01" := by
  constructor
  · rfl
  · intro hcontra
    exact absurd hcontra (by decide)

/-- C6 amended: the totals row is rendered exactly when the loaded list is
non-empty and its amount is the sum of all loaded amounts, but the date
range interpolates the last (oldest) entry first and the first (most
recent) entry second — oldest-to-newest, not newest-to-oldest. -/
theorem totals_row_oldest_to_newest (investments : List Investment) :
    (totalsRowRendered investments = true ↔ investments ≠ []) ∧
    totalsAmount investments = (investments.map (fun i => i.amount)).sum ∧
    ∀ h : investments ≠ [],
      totalsDateRange investments =
        (investments.getLast h).investment_date ++ " - " ++
          (investments.head h).investment_date := by
  refine ⟨by simp [totalsRowRendered], ?_, ?_⟩
  · simpa [totalsAmount] using
      foldl_add_map (fun i : Investment => i.amount) investments 0
  · intro h
    simp [totalsDateRange, List.head?_eq_head h,
      List.getLast?_eq_getLast_of_ne_nil h]

/-- Witness for C6's amended claim at the two-element list of the spec's
example: the amount is 350 and the rendered range runs oldest to newest. -/
theorem totals_row_oldest_to_newest_witness :
    totalsAmount
        [{ id := "a", amount := 100, investment_date := "2024-01-02",
           category := "Stocks", notes := "" },
         { id := "b", amount := 250, investment_date := "2024-01-01",
           category := "Bonds", notes := "" }] = 350 ∧
    totalsDateRange
        [{ id := "a", amount := 100, investment_date := "2024-01-02",
           category := "Stocks", notes := "" },
         { id := "b", amount := 250, investment_date := "2024-01-01",
           category := "Bonds", notes := "" }] = "2024-01-01 - 2024-01-02" := by
  constructor
  · have hsum := (totals_row_oldest_to_newest
      [{ id := "a", amount := 100, investment_date := "2024-01-02",
         category := "Stocks", notes := "" },
       { id := "b", amount := 250, investment_date := "2024-01-01",
         category := "Bonds", notes := "" }]).2.1
    rw [hsum]
    norm_num
  · have hrange := (totals_row_oldest_to_newest
      [{ id := "a", amount := 100, investment_date := "2024-01-02",
         category := "Stocks", notes := "" },
       { id := "b", amount := 250, investment_date := "2024-01-01",
         category := "Bonds", notes := "" }]).2.2 (List.cons_ne_nil _ _)
    rw [hrange]
    rfl

/-- C7: the delete path removes on the server exactly the row whose id
matches the request and whose owner passes the row-level-security policy
for the current user; on success the client drops exactly that item from
the in-memory list (no re-fetch is modelled or performed) leaving the error
untouched, and on failure it records the error message and leaves the
in-memory list unchanged. -/
theorem delete_scoped_and_optimistic_removal (uid id : String)
    (table : List InvestmentRow) (st : DashboardState) :
    (∀ row ∈ table,
      (row ∈ serverDelete uid id table ↔ ¬(row.id = id ∧ uid = row.user_id))) ∧
    (∀ x : Investment, x ∈ (deleteInvestment st id none).investments ↔
      x ∈ st.investments ∧ x.id ≠ id) ∧
    (deleteInvestment st id none).error = st.error ∧
    (∀ message : String,
      (deleteInvestment st id (some message)).investments = st.investments ∧
      (deleteInvestment st id (some message)).error = some message) := by
  refine ⟨?_, ?_, rfl, fun message => ⟨rfl, rfl⟩⟩
  · intro row hrow
    simp only [serverDelete, List.mem_filter, hrow, deleteRequestFilter,
      deletePolicy, true_and, Bool.not_eq_true', Bool.and_eq_false_iff,
      beq_eq_false_iff_ne, ne_eq]
    tauto
  · intro x
    simp [deleteInvestment, List.mem_filter]

/-- Witness for C7: the owner's matching row is removed by the server
delete, and a failed delete leaves the one-item client list intact with
the error recorded. -/
theorem delete_scoped_and_optimistic_removal_witness :
    ¬ ({ id := "i1", user_id := "u1", amount := 100,
         investment_date := "2024-01-01", category := "Stocks",
         notes := "" } : InvestmentRow) ∈
        serverDelete "u1" "i1"
          [{ id := "i1", user_id := "u1", amount := 100,
             investment_date := "2024-01-01", category := "Stocks",
             notes := "" }] ∧
    (deleteInvestment
        { investments := [{ id := "x", amount := 5, investment_date := "d",
                            category := "c", notes := "n" }], error := none }
        "x" (some "boom")).investments =
      [{ id := "x", amount := 5, investment_date := "d",
         category := "c", notes := "n" }] ∧
    (deleteInvestment
        { investments := [{ id := "x", amount := 5, investment_date := "d",
                            category := "c", notes := "n" }], error := none }
        "x" (some "boom")).error = some "boom" :=
  ⟨fun hmem =>
    ((delete_scoped_and_optimistic_removal "u1" "i1"
        [{ id := "i1", user_id := "u1", amount := 100,
           investment_date := "2024-01-01", category := "Stocks",
           notes := "" }]
        { investments := [], error := none }).1 _ (by simp)).1 hmem ⟨rfl, rfl⟩,
   ((delete_scoped_and_optimistic_removal "x" "x"
        []
        { investments := [{ id := "x", amount := 5, investment_date := "d",
                            category := "c", notes := "n" }],
          error := none }).2.2.2 "boom").1,
   ((delete_scoped_and_optimistic_removal "x" "x"
        []
        { investments := [{ id := "x", amount := 5, investment_date := "d",
                            category := "c", notes := "n" }],
          error := none }).2.2.2 "boom").2⟩

/-- C8: the allocation sequence starts as exactly one empty draft, adding
appends one empty draft, and removing at any position never empties the
sequence — removing the last remaining draft replaces it with a fresh
empty draft, giving length 1, never length 0. -/
theorem allocation_sequence_never_empty (allocations : List CategoryAllocation)
    (index : ℕ) (h : allocations ≠ []) :
    initialAllocations = [initialDraft] ∧
    initialAllocations.length = 1 ∧
    (handleAddAllocation allocations).length = allocations.length + 1 ∧
    handleRemoveAllocation allocations index ≠ [] ∧
    (allocations.length = 1 → handleRemoveAllocation allocations index = [freshDraft]) := by
  refine ⟨rfl, rfl, by simp [handleAddAllocation], ?_, ?_⟩
  · by_cases h1 : allocations.length = 1
    · simp [handleRemoveAllocation, h1]
    · have h2 : 2 ≤ allocations.length := by
        cases allocations with
        | nil => exact absurd rfl h
        | cons a rest =>
          simp only [List.length_cons] at h1 ⊢
          omega
      have hg : (allocations.length == 1) = false := by simp [h1]
      rw [handleRemoveAllocation, hg]
      simp only [Bool.false_eq_true, if_false]
      intro hempty
      rw [List.map_eq_nil_iff] at hempty
      have hlen := enumFrom_filter_length allocations 0 index
      rw [show List.enum allocations = List.enumFrom 0 allocations from rfl] at hempty
      rw [hempty] at hlen
      simp only [List.length_nil] at hlen
      omega
  · intro h1
    simp [handleRemoveAllocation, h1]

/-- Witness for C8: removing the only draft resets the sequence to one
fresh draft; removing from a two-draft sequence never empties it. -/
theorem allocation_sequence_never_empty_witness :
    handleRemoveAllocation [initialDraft] 0 = [freshDraft] ∧
    handleRemoveAllocation [initialDraft, freshDraft] 5 ≠ [] :=
  ⟨(allocation_sequence_never_empty [initialDraft] 0
      (List.cons_ne_nil _ _)).2.2.2.2 rfl,
   (allocation_sequence_never_empty [initialDraft, freshDraft] 5
      (List.cons_ne_nil _ _)).2.2.2.1⟩

end DcaExperiment
